import Mathlib

/-!
# Verification of the infographics pipeline (anyway/infographics_utils.py)

A shallow embedding of the module's data model and operations, translated
from the Python source, together with theorems settling the frozen claims
about it.  Python dictionaries are modelled as insertion-ordered association
lists, Python scalars and JSON-ish values as inductive types, machine
integers as `Int`, SQL `Numeric` values as `ℚ`, and fallible code as
`Except`/`Option` values.
-/

set_option autoImplicit false

namespace Infographics

/-- Scalar values stored in location dictionaries and row fields. -/
inductive PyScalar where
  | i (n : Int)
  | s (str : String)
deriving DecidableEq, Repr

def PyScalar.asString : PyScalar → String
  | .i n => toString n
  | .s t => t

/-- JSON-like Python values: the payloads that widgets serialize into. -/
inductive PyVal where
  | none
  | int (n : Int)
  | str (s : String)
  | rat (q : ℚ)
  | list (l : List PyVal)
  | dict (l : List (String × PyVal))

/-- Python truthiness for the values the module branches on
(`if self.text:`, `if self.meta:`, `if not res:`). -/
def truthy : PyVal → Bool
  | .none => false
  | .int n => n != 0
  | .str s => s != ""
  | .rat q => q != 0
  | .list l => !l.isEmpty
  | .dict l => !l.isEmpty

/-- First-occurrence lookup in an ordered dictionary, `d.get(k)`. -/
def pyLookup (l : List (String × PyVal)) (k : String) : Option PyVal :=
  (l.find? (fun p => p.1 == k)).map (fun p => p.2)

/-- `d[k] = v` on a Python dict: update the first entry holding `k`,
otherwise append the new key at the end (insertion order). -/
def pvDictSet : List (String × PyVal) → String → PyVal → List (String × PyVal)
  | [], k, v => [(k, v)]
  | (k0, v0) :: rest, k, v =>
      if k0 == k then (k0, v) :: rest else (k0, v0) :: pvDictSet rest k v

/-- Exceptions that the embedded code can raise. -/
inductive PyErr where
  | valueError
  | typeError
  | attributeError
  | keyError
deriving DecidableEq, Repr

/-! ## Integer-valued ordered dictionaries (collections.defaultdict(int)) -/

/-- An insertion-ordered `str -> int` dictionary. -/
abbrev CountDict := List (String × Int)

/-- `d[k]` on a `defaultdict(int)`: 0 when the key is absent. -/
def dictGet (d : CountDict) (k : String) : Int :=
  ((d.find? (fun p => p.1 == k)).map (fun p => p.2)).getD 0

/-- `d[k] += v` on a `defaultdict(int)`: bump the first entry holding `k`,
otherwise append `(k, v)` (0 + v) at the end. -/
def dictBump : CountDict → String → Int → CountDict
  | [], k, v => [(k, v)]
  | (k0, v0) :: rest, k, v =>
      if k0 == k then (k0, v0 + v) :: rest else (k0, v0) :: dictBump rest k v

/-- `d[k] = v`: update the first entry holding `k`, otherwise append. -/
def dictSet : CountDict → String → Int → CountDict
  | [], k, v => [(k, v)]
  | (k0, v0) :: rest, k, v =>
      if k0 == k then (k0, v) :: rest else (k0, v0) :: dictSet rest k v

/-- `del d[k]`: drop the first entry holding `k` (keys are unique in the
dictionaries built here, so this is Python's deletion). -/
def dictDel : CountDict → String → CountDict
  | [], _ => []
  | (k0, v0) :: rest, k =>
      if k0 == k then rest else (k0, v0) :: dictDel rest k

/-- The keys of an ordered dictionary, in order. -/
def keysOf (d : CountDict) : List String := d.map (fun p => p.1)

/-- The sum of all values of an ordered dictionary. -/
def dsum (d : CountDict) : Int := (d.map (fun p => p.2)).sum

theorem dsum_nil : dsum [] = 0 := rfl

theorem dsum_cons (p : String × Int) (d : CountDict) :
    dsum (p :: d) = p.2 + dsum d := by
  simp [dsum]

theorem dsum_dictBump (d : CountDict) (k : String) (v : Int) :
    dsum (dictBump d k v) = dsum d + v := by
  induction d with
  | nil => simp [dictBump, dsum]
  | cons p rest ih =>
      by_cases h : p.1 == k
      · simp [dictBump, h, dsum_cons]
        ring
      · simp [dictBump, h, dsum_cons, ih]
        ring

theorem dictGet_dictBump_ne (d : CountDict) (k k9 : String) (v : Int)
    (h : k9 ≠ k) : dictGet (dictBump d k v) k9 = dictGet d k9 := by
  induction d with
  | nil =>
      by_cases hk : k == k9
      · exact absurd (by simpa using hk : k = k9).symm h
      · simp [dictBump, dictGet, List.find?, hk]
  | cons p rest ih =>
      by_cases hp : p.1 == k
      · have hpk : p.1 = k := by simpa using hp
        by_cases hq : p.1 == k9
        · have hq2 : p.1 = k9 := by simpa using hq
          exact absurd (hpk ▸ hq2) (fun he => h he.symm)
        · simp [dictBump, hp, dictGet, List.find?, hq]
      · by_cases hq : p.1 == k9
        · simp [dictBump, hp, dictGet, List.find?, hq]
        · simp only [dictBump, hp, if_neg]
          simp [dictGet, List.find?, hq] at ih ⊢
          exact ih

theorem keysOf_dictBump (d : CountDict) (k k9 : String) (v : Int)
    (h : k9 ∈ keysOf (dictBump d k v)) : k9 ∈ keysOf d ∨ k9 = k := by
  induction d with
  | nil =>
      simp [dictBump, keysOf] at h
      exact Or.inr h
  | cons p rest ih =>
      by_cases hp : p.1 == k
      · simp [dictBump, hp, keysOf] at h ⊢
        tauto
      · simp [dictBump, hp, keysOf] at h ⊢
        rcases h with h | h
        · tauto
        · rcases ih (by simpa [keysOf] using h) with h2 | h2
          · simp [keysOf] at h2
            tauto
          · tauto

/-! ## Dates and timestamps -/

/-- A calendar date (`datetime.date`); the year is an `Int` to keep the
start-year arithmetic exact. -/
structure MyDate where
  year : Int
  month : Nat
  day : Nat
deriving DecidableEq, Repr

/-- An accident timestamp: a date plus the minute of the day
(`accident_timestamp` has date and time-of-day components). -/
structure Timestamp where
  date : MyDate
  tick : Nat
deriving DecidableEq, Repr

/-- Chronological order on timestamps (lexicographic on year, month, day,
minute-of-day), as the data store compares `accident_timestamp` values. -/
def tsLe (a b : Timestamp) : Bool :=
  decide (a.date.year < b.date.year ∨ (a.date.year = b.date.year ∧
    (a.date.month < b.date.month ∨ (a.date.month = b.date.month ∧
      (a.date.day < b.date.day ∨ (a.date.day = b.date.day ∧ a.tick ≤ b.tick))))))

theorem tsLe_refl (a : Timestamp) : tsLe a a = true := by
  simp [tsLe]

theorem tsLe_total (a b : Timestamp) : tsLe a b = true ∨ tsLe b a = true := by
  simp only [tsLe, decide_eq_true_eq]
  omega

theorem tsLe_trans (a b c : Timestamp) (h1 : tsLe a b = true)
    (h2 : tsLe b c = true) : tsLe a c = true := by
  simp only [tsLe, decide_eq_true_eq] at h1 h2 ⊢
  omega

/-- Python `datetime.date(y, m, d)`: raises `ValueError` when the year is
outside `[1, 9999]` (month/day validation is elided: the module only ever
builds January 1). -/
def mkDate (y : Int) (m d : Nat) : Except PyErr MyDate :=
  if 1 ≤ y ∧ y ≤ 9999 then .ok ⟨y, m, d⟩ else .error .valueError

/-- Zero-padded two-digit rendering used by `strftime`. -/
def two (n : Nat) : String :=
  if n < 10 then "0" ++ toString n else toString n

/-- `strftime("%d/%m/%y")`. -/
def fmtDate (d : MyDate) : String :=
  two d.day ++ "/" ++ two d.month ++ "/" ++ two ((d.year % 100).toNat)

/-- `strftime("%H:%M")` from the minute-of-day. -/
def fmtTime (tick : Nat) : String :=
  two (tick / 60) ++ ":" ++ two (tick % 60)

/-- A printable rendering of a timestamp (for `json.dumps(..., default=str)`). -/
def tsToString (t : Timestamp) : String :=
  fmtDate t.date ++ " " ++ fmtTime t.tick

/-! ## Accident-type merge (get_accident_count_by_accident_type, src 189-204)

The query step produces `{accident_type, count}` records; the merge loop
below is the body of lines 198-204. -/

/-- One `{accident_type, count}` record as returned by the grouped query. -/
structure TypeCount where
  accident_type : String
  count : Int
deriving DecidableEq, Repr

/-- The Hebrew word for "collision" used as the merge key. -/
def collisionWord : String := "התנגשות"

/-- Contiguous-substring test on character lists (Python `needle in hay`). -/
def containsSub (hay needle : List Char) : Bool :=
  match hay with
  | [] => needle.isEmpty
  | _ :: t => needle.isPrefixOf hay || containsSub t needle

/-- Python `"התנגשות" in item["accident_type"]`: substring containment. -/
def hasCollision (tc : TypeCount) : Bool :=
  containsSub tc.accident_type.data collisionWord.data

/-- One iteration of the merge loop: a collision-containing category is
added into the synthetic head bucket, any other category is appended. -/
def mergeStep (acc : TypeCount × List TypeCount) (item : TypeCount) :
    TypeCount × List TypeCount :=
  if hasCollision item then
    ({ acc.1 with count := acc.1.count + item.count }, acc.2)
  else
    (acc.1, acc.2 ++ [item])

/-- The merge loop of `get_accident_count_by_accident_type` (src 198-204):
start from `[{"accident_type": "התנגשות", "count": 0}]`, add every
collision-containing category into that first bucket, and append every
other category unchanged. -/
def mergeAccidentTypeCounts (l : List TypeCount) : List TypeCount :=
  let acc := l.foldl mergeStep (⟨collisionWord, 0⟩, [])
  acc.1 :: acc.2

theorem mergeFold_spec (l : List TypeCount) (h : TypeCount)
    (acc : List TypeCount) :
    l.foldl mergeStep (h, acc) =
      (⟨h.accident_type,
        h.count + ((l.filter hasCollision).map (fun tc => tc.count)).sum⟩,
       acc ++ l.filter (fun tc => !hasCollision tc)) := by
  induction l generalizing h acc with
  | nil => simp
  | cons x xs ih =>
      by_cases hx : hasCollision x
      · simp [mergeStep, hx, ih]
        ring
      · simp [mergeStep, hx, ih]

theorem sum_filter_split (l : List TypeCount) :
    ((l.filter hasCollision).map (fun tc => tc.count)).sum +
      ((l.filter (fun tc => !hasCollision tc)).map (fun tc => tc.count)).sum =
      (l.map (fun tc => tc.count)).sum := by
  induction l with
  | nil => simp
  | cons x xs ih =>
      by_cases hx : hasCollision x <;> simp [hx] <;> omega

/-- C5: the accident-type merge conserves the total.  The synthetic
"התנגשות" head bucket holds exactly the sum of the counts of the raw
categories containing that substring, every other category passes through
unchanged in query order, and hence the sum of the output counts equals the
sum of the raw counts — no double counting, no loss. -/
theorem accident_type_merge_conserves_total (l : List TypeCount) :
    mergeAccidentTypeCounts l =
      ⟨collisionWord, ((l.filter hasCollision).map (fun tc => tc.count)).sum⟩ ::
        l.filter (fun tc => !hasCollision tc) ∧
    ((mergeAccidentTypeCounts l).map (fun tc => tc.count)).sum =
      (l.map (fun tc => tc.count)).sum := by
  have hm : mergeAccidentTypeCounts l =
      ⟨collisionWord, ((l.filter hasCollision).map (fun tc => tc.count)).sum⟩ ::
        l.filter (fun tc => !hasCollision tc) := by
    simp [mergeAccidentTypeCounts, mergeFold_spec]
  refine ⟨hm, ?_⟩
  rw [hm]
  simpa using sum_filter_split l

/-! ## Age-bucket reclassification
(filter_and_group_injured_count_per_age_group, src 320-369) -/

/-- One `{age_group, count}` record of the grouped injured-by-age query. -/
structure AgeCount where
  age_group : String
  count : Int
deriving DecidableEq, Repr

def digitVal (c : Char) : Nat := c.toNat - Char.toNat '0'

/-- `re.match("([0-9]{2})\\-([0-9]{2})", s)`: two digits, a dash, two
digits, anchored at the start of the string (later characters are free). -/
def matchRangePair (s : String) : Option (Nat × Nat) :=
  match s.data with
  | a :: b :: '-' :: c :: d :: _ =>
      if a.isDigit && b.isDigit && c.isDigit && d.isDigit then
        some (10 * digitVal a + digitVal b, 10 * digitVal c + digitVal d)
      else none
  | _ => none

/-- `re.match("([0-9]{2})\\+", s)`: two digits and a plus sign at the start
of the string; the maximum age is taken to be 200. -/
def matchRangePlus (s : String) : Option (Nat × Nat) :=
  match s.data with
  | a :: b :: '+' :: _ =>
      if a.isDigit && b.isDigit then some (10 * digitVal a + digitVal b, 200)
      else none
  | _ => none

/-- `range_dict = {0: 14, 15: 24, 25: 64, 65: 200}` in insertion order. -/
def rangeDict : List (Nat × Nat) := [(0, 14), (15, 24), (25, 64), (65, 200)]

/-- `f"{item_min_range:02}-{item_max_range:02}"`. -/
def bucketLabel (p : Nat × Nat) : String := two p.1 ++ "-" ++ two p.2

/-- The first bucket of `range_dict` containing both ends of the parsed
range (the loop with `break`); `none` when no bucket contains the range. -/
def findBucket (minAge maxAge : Nat) : Option (Nat × Nat) :=
  rangeDict.find? (fun p =>
    decide (p.1 ≤ minAge ∧ minAge ≤ p.2 ∧ p.1 ≤ maxAge ∧ maxAge ≤ p.2))

/-- The dictionary key a record is accumulated into: the containing fixed
bucket for a parsable range, "unknown" for an unparsable string, and `none`
(the count is silently dropped) for a parsable range that no single bucket
contains.  (The source's `len(regex_age_matches) != 2` arm is dead code:
that regex always yields two groups.) -/
def recKey (rec : AgeCount) : Option String :=
  match matchRangePair rec.age_group with
  | some (mn, mx) => (findBucket mn mx).map bucketLabel
  | none =>
      match matchRangePlus rec.age_group with
      | some (mn, mx) => (findBucket mn mx).map bucketLabel
      | none => some "unknown"

/-- One iteration of the accumulation loop of
`filter_and_group_injured_count_per_age_group`. -/
def ageStep (d : CountDict) (rec : AgeCount) : CountDict :=
  match recKey rec with
  | some k => dictBump d k rec.count
  | none => d

/-- `filter_and_group_injured_count_per_age_group` (src 320-369): parse and
re-bucket each record, then rename the "65-200" key to "65+" (the
defaultdict read transiently inserts "65-200" when absent; the `del` on the
next line removes it again, so the embedding elides the transient key), and
emit the dictionary as a list of records in key-insertion order. -/
def filter_and_group_injured_count_per_age_group (data : List AgeCount) :
    List AgeCount :=
  let d := data.foldl ageStep []
  let d2 := dictDel (dictSet d "65+" (dictGet d "65-200")) "65-200"
  d2.map (fun p => ⟨p.1, p.2⟩)

def allowedAgeKeys : List String :=
  ["unknown", "00-14", "15-24", "25-64", "65-200"]

theorem recKey_mem_allowed (rec : AgeCount) (k : String)
    (h : recKey rec = some k) : k ∈ allowedAgeKeys := by
  have hb : ∀ mn mx, (findBucket mn mx).map bucketLabel = some k →
      k ∈ allowedAgeKeys := by
    intro mn mx hm
    rcases Option.map_eq_some.mp hm with ⟨p, hp, hk⟩
    have hmem : p ∈ rangeDict := List.mem_of_find?_eq_some hp
    subst hk
    simp only [rangeDict, List.mem_cons, List.not_mem_nil, or_false] at hmem
    rcases hmem with h | h | h | h <;> subst h <;> decide
  unfold recKey at h
  rcases h1 : matchRangePair rec.age_group with _ | ⟨mn, mx⟩
  · rcases h2 : matchRangePlus rec.age_group with _ | ⟨mn, mx⟩
    · rw [h1, h2] at h
      simp at h
      subst h
      simp [allowedAgeKeys]
    · rw [h1, h2] at h
      exact hb mn mx h
  · rw [h1] at h
    exact hb mn mx h

theorem dictSet_of_not_mem (d : CountDict) (k : String) (v : Int)
    (h : k ∉ keysOf d) : dictSet d k v = d ++ [(k, v)] := by
  induction d with
  | nil => rfl
  | cons p rest ih =>
      have hk : ¬(p.1 == k) := by
        simp [keysOf] at h
        simp
        intro he
        exact absurd he.symm h.1
      simp [dictSet, hk]
      exact ih (by simp [keysOf] at h ⊢; exact h.2)

theorem dictBump_of_not_mem (d : CountDict) (k : String) (v : Int)
    (h : k ∉ keysOf d) : dictBump d k v = d ++ [(k, v)] := by
  induction d with
  | nil => rfl
  | cons p rest ih =>
      have hk : ¬(p.1 == k) := by
        simp [keysOf] at h
        simp
        intro he
        exact absurd he.symm h.1
      simp [dictBump, hk]
      exact ih (by simp [keysOf] at h ⊢; exact h.2)

theorem keysOf_dictBump_of_mem (d : CountDict) (k : String) (v : Int)
    (h : k ∈ keysOf d) : keysOf (dictBump d k v) = keysOf d := by
  induction d with
  | nil => simp [keysOf] at h
  | cons p rest ih =>
      by_cases hk : p.1 == k
      · simp [dictBump, hk, keysOf]
      · have hmem : k ∈ keysOf rest := by
          rcases List.mem_cons.mp h with h2 | h2
          · exact absurd h2.symm (by simpa using hk)
          · exact h2
        have hbump : dictBump (p :: rest) k v = p :: dictBump rest k v := by
          simp [dictBump, hk]
        rw [hbump]
        show p.1 :: keysOf (dictBump rest k v) = p.1 :: keysOf rest
        rw [ih hmem]

theorem nodup_keys_dictBump (d : CountDict) (k : String) (v : Int)
    (h : (keysOf d).Nodup) : (keysOf (dictBump d k v)).Nodup := by
  by_cases hm : k ∈ keysOf d
  · rw [keysOf_dictBump_of_mem d k v hm]
    exact h
  · rw [dictBump_of_not_mem d k v hm]
    simp only [keysOf, List.map_append] at h ⊢
    simp [List.nodup_append, h]
    simpa [keysOf] using hm

theorem keysOf_dictDel_subset (d : CountDict) (k k9 : String)
    (h : k9 ∈ keysOf (dictDel d k)) : k9 ∈ keysOf d := by
  induction d with
  | nil => simpa [dictDel] using h
  | cons p rest ih =>
      by_cases hk : p.1 == k
      · have hdel : dictDel (p :: rest) k = rest := by simp [dictDel, hk]
        rw [hdel] at h
        exact List.mem_cons_of_mem _ h
      · have hdel : dictDel (p :: rest) k = p :: dictDel rest k := by
          simp [dictDel, hk]
        rw [hdel] at h
        rcases List.mem_cons.mp h with h2 | h2
        · exact List.mem_cons.mpr (Or.inl h2)
        · exact List.mem_cons.mpr (Or.inr (ih h2))

theorem not_mem_keys_dictDel (d : CountDict) (k : String)
    (h : (keysOf d).Nodup) : k ∉ keysOf (dictDel d k) := by
  induction d with
  | nil => simp [dictDel, keysOf]
  | cons p rest ih =>
      by_cases hk : p.1 == k
      · have hpk : p.1 = k := by simpa using hk
        simp [dictDel, hk]
        simp [keysOf, hpk] at h
        simpa [keysOf] using h.1
      · simp [dictDel, hk, keysOf]
        constructor
        · intro he
          exact absurd he.symm (by simpa using hk)
        · have := ih (by simp [keysOf] at h; exact h.2)
          simpa [keysOf] using this

theorem mem_dictDel_of_ne (d : CountDict) (k k2 : String) (v : Int)
    (hmem : (k2, v) ∈ d) (hne : k2 ≠ k) : (k2, v) ∈ dictDel d k := by
  induction d with
  | nil => simp at hmem
  | cons p rest ih =>
      by_cases hk : p.1 == k
      · simp [dictDel, hk]
        rcases List.mem_cons.mp hmem with h | h
        · exact absurd (by rw [← h] at hk; simpa using hk) hne
        · exact h
      · simp [dictDel, hk]
        rcases List.mem_cons.mp hmem with h | h
        · exact Or.inl h
        · exact Or.inr (ih h)

theorem dsum_append (l1 l2 : CountDict) : dsum (l1 ++ l2) = dsum l1 + dsum l2 := by
  simp [dsum]

theorem dictGet_of_not_mem (d : CountDict) (k : String) (h : k ∉ keysOf d) :
    dictGet d k = 0 := by
  induction d with
  | nil => rfl
  | cons p rest ih =>
      have hk : ¬(p.1 == k) := by
        simp [keysOf] at h
        simp
        intro he
        exact absurd he.symm h.1
      simp [dictGet, List.find?, hk] at ih ⊢
      exact ih (by simp [keysOf] at h ⊢; exact h.2)

theorem dictDel_of_not_mem (d : CountDict) (k : String) (h : k ∉ keysOf d) :
    dictDel d k = d := by
  induction d with
  | nil => rfl
  | cons p rest ih =>
      have hk : ¬(p.1 == k) := by
        simp [keysOf] at h
        simp
        intro he
        exact absurd he.symm h.1
      simp [dictDel, hk]
      exact ih (by simp [keysOf] at h ⊢; exact h.2)

theorem dsum_dictDel_of_mem (d : CountDict) (k : String) (h : k ∈ keysOf d) :
    dsum (dictDel d k) = dsum d - dictGet d k := by
  induction d with
  | nil => simp [keysOf] at h
  | cons p rest ih =>
      by_cases hk : p.1 == k
      · have hdel : dictDel (p :: rest) k = rest := by simp [dictDel, hk]
        have hget : dictGet (p :: rest) k = p.2 := by
          simp [dictGet, List.find?, hk]
        rw [hdel, hget, dsum_cons]
        ring
      · have hmem : k ∈ keysOf rest := by
          rcases List.mem_cons.mp h with h2 | h2
          · exact absurd h2.symm (by simpa using hk)
          · exact h2
        have hdel : dictDel (p :: rest) k = p :: dictDel rest k := by
          simp [dictDel, hk]
        have hget : dictGet (p :: rest) k = dictGet rest k := by
          simp [dictGet, List.find?, hk]
        rw [hdel, hget, dsum_cons, dsum_cons, ih hmem]
        ring

/-! Fold invariants for the age-bucket accumulation loop. -/

theorem fold_keys_allowed (data : List AgeCount) :
    ∀ d : CountDict, (∀ k ∈ keysOf d, k ∈ allowedAgeKeys) →
      ∀ k ∈ keysOf (data.foldl ageStep d), k ∈ allowedAgeKeys := by
  induction data with
  | nil => intro d h k hk; exact h k hk
  | cons rec rest ih =>
      intro d h k hk
      refine ih (ageStep d rec) ?_ k hk
      intro k9 hk9
      unfold ageStep at hk9
      rcases hr : recKey rec with _ | kb
      · rw [hr] at hk9
        exact h k9 hk9
      · rw [hr] at hk9
        rcases keysOf_dictBump d kb k9 rec.count hk9 with h2 | h2
        · exact h k9 h2
        · subst h2
          exact recKey_mem_allowed rec k9 hr

theorem fold_keys_nodup (data : List AgeCount) :
    ∀ d : CountDict, (keysOf d).Nodup → (keysOf (data.foldl ageStep d)).Nodup := by
  induction data with
  | nil => intro d h; exact h
  | cons rec rest ih =>
      intro d h
      refine ih (ageStep d rec) ?_
      unfold ageStep
      rcases recKey rec with _ | kb
      · exact h
      · exact nodup_keys_dictBump d kb rec.count h

theorem fold_dsum (data : List AgeCount) :
    ∀ d : CountDict, (∀ rec ∈ data, (recKey rec).isSome) →
      dsum (data.foldl ageStep d) = dsum d + (data.map (fun r => r.count)).sum := by
  induction data with
  | nil => intro d _; simp
  | cons rec rest ih =>
      intro d h
      have hrec : (recKey rec).isSome := h rec (by simp)
      rcases hr : recKey rec with _ | kb
      · rw [hr] at hrec; simp at hrec
      · have : rest.foldl ageStep (ageStep d rec) =
            rest.foldl ageStep (dictBump d kb rec.count) := by
          unfold ageStep; rw [hr]
        simp only [List.foldl_cons, this]
        rw [ih (dictBump d kb rec.count) (fun r hm => h r (by simp [hm]))]
        rw [dsum_dictBump]
        simp
        ring

theorem fold_dictGet_zero (data : List AgeCount) (k : String) :
    ∀ d : CountDict, dictGet d k = 0 → (∀ rec ∈ data, recKey rec ≠ some k) →
      dictGet (data.foldl ageStep d) k = 0 := by
  induction data with
  | nil => intro d h _; exact h
  | cons rec rest ih =>
      intro d h hall
      refine ih (ageStep d rec) ?_ (fun r hm => hall r (by simp [hm]))
      unfold ageStep
      rcases hr : recKey rec with _ | kb
      · exact h
      · have hkb : k ≠ kb := by
          intro he
          exact hall rec (by simp) (he ▸ hr)
        rw [dictGet_dictBump_ne d kb k rec.count hkb]
        exact h

theorem keysOf_append (l1 l2 : CountDict) :
    keysOf (l1 ++ l2) = keysOf l1 ++ keysOf l2 := by
  simp [keysOf]

theorem dictGet_append_left (l1 l2 : CountDict) (k : String)
    (h : k ∈ keysOf l1) : dictGet (l1 ++ l2) k = dictGet l1 k := by
  induction l1 with
  | nil => simp [keysOf] at h
  | cons p rest ih =>
      by_cases hk : p.1 == k
      · simp [dictGet, List.find?, hk]
      · have hmem : k ∈ keysOf rest := by
          rcases List.mem_cons.mp h with h2 | h2
          · exact absurd h2.symm (by simpa using hk)
          · exact h2
        have h1 : dictGet ((p :: rest) ++ l2) k = dictGet (rest ++ l2) k := by
          simp [dictGet, List.find?, hk]
        have h2 : dictGet (p :: rest) k = dictGet rest k := by
          simp [dictGet, List.find?, hk]
        rw [h1, h2, ih hmem]

/-- Renaming "65-200" to "65+" (`d["65+"] = d["65-200"]; del d["65-200"]`)
conserves the sum of the dictionary values. -/
theorem rename_dsum (d : CountDict) (h65 : "65+" ∉ keysOf d) :
    dsum (dictDel (dictSet d "65+" (dictGet d "65-200")) "65-200") = dsum d := by
  rw [dictSet_of_not_mem d _ _ h65]
  by_cases hm : "65-200" ∈ keysOf d
  · have hmem2 : "65-200" ∈ keysOf (d ++ [("65+", dictGet d "65-200")]) := by
      rw [keysOf_append]
      exact List.mem_append_left _ hm
    rw [dsum_dictDel_of_mem _ _ hmem2, dictGet_append_left _ _ _ hm, dsum_append]
    simp [dsum]
  · have hz : dictGet d "65-200" = 0 := dictGet_of_not_mem d _ hm
    have hnm : "65-200" ∉ keysOf (d ++ [("65+", dictGet d "65-200")]) := by
      rw [keysOf_append]
      intro hc
      rcases List.mem_append.mp hc with hc | hc
      · exact hm hc
      · simp [keysOf] at hc
    rw [dictDel_of_not_mem _ _ hnm, dsum_append, hz]
    simp [dsum]

/-- The renamed dictionary always holds the "65+" entry, carrying the value
accumulated under "65-200". -/
theorem rename_mem (d : CountDict) (h65 : "65+" ∉ keysOf d) :
    ("65+", dictGet d "65-200") ∈
      dictDel (dictSet d "65+" (dictGet d "65-200")) "65-200" := by
  rw [dictSet_of_not_mem d _ _ h65]
  refine mem_dictDel_of_ne _ _ _ _ ?_ (by decide)
  exact List.mem_append_right _ (by simp)

theorem rename_keys (d : CountDict) (v : Int) (hnd : (keysOf d).Nodup)
    (h65 : "65+" ∉ keysOf d) (k : String)
    (hk : k ∈ keysOf (dictDel (dictSet d "65+" v) "65-200")) :
    (k ∈ keysOf d ∨ k = "65+") ∧ k ≠ "65-200" := by
  rw [dictSet_of_not_mem d _ _ h65] at hk
  have hsub := keysOf_dictDel_subset _ _ _ hk
  rw [keysOf_append] at hsub
  have hdisj : k ∈ keysOf d ∨ k = "65+" := by
    rcases List.mem_append.mp hsub with h | h
    · exact Or.inl h
    · simp [keysOf] at h
      exact Or.inr h
  refine ⟨hdisj, ?_⟩
  have hndX : (keysOf (d ++ [("65+", v)])).Nodup := by
    rw [keysOf_append]
    simp [List.nodup_append, hnd]
    simpa [keysOf] using h65
  intro he
  subst he
  exact not_mem_keys_dictDel _ _ hndX hk

theorem fold_keys_allowed_nil (data : List AgeCount) :
    ∀ k ∈ keysOf (data.foldl ageStep []), k ∈ allowedAgeKeys :=
  fold_keys_allowed data [] (by intro k hk; simp [keysOf] at hk)

theorem fold_no_65_plus (data : List AgeCount) :
    "65+" ∉ keysOf (data.foldl ageStep []) := by
  intro hmem
  exact absurd (fold_keys_allowed_nil data _ hmem) (by decide)

/-- C10: for every input list — the empty list included — the output of the
age-bucket reclassification contains an entry for the "65+" bucket, because
the relabeling step unconditionally creates that key; its count is 0 when
no record was accumulated into the 65-200 range. -/
theorem age_group_output_contains_65_plus (data : List AgeCount) :
    (∃ c : Int, (⟨"65+", c⟩ : AgeCount) ∈
        filter_and_group_injured_count_per_age_group data) ∧
    ((∀ rec ∈ data, recKey rec ≠ some "65-200") →
      (⟨"65+", 0⟩ : AgeCount) ∈
        filter_and_group_injured_count_per_age_group data) := by
  have h65 := fold_no_65_plus data
  constructor
  · refine ⟨dictGet (data.foldl ageStep []) "65-200", ?_⟩
    unfold filter_and_group_injured_count_per_age_group
    exact List.mem_map.mpr ⟨_, rename_mem _ h65, rfl⟩
  · intro hall
    have hz : dictGet (data.foldl ageStep []) "65-200" = 0 :=
      fold_dictGet_zero data "65-200" [] rfl hall
    unfold filter_and_group_injured_count_per_age_group
    refine List.mem_map.mpr ⟨("65+", 0), ?_, rfl⟩
    have h2 := rename_mem (data.foldl ageStep []) h65
    rw [hz] at h2
    rw [hz]
    exact h2

/-- C10 witness: the empty input still yields the "65+" entry with count 0. -/
theorem age_group_contains_65_plus_witness :
    (⟨"65+", 0⟩ : AgeCount) ∈ filter_and_group_injured_count_per_age_group [] :=
  (age_group_output_contains_65_plus []).2 (by intro rec h; cases h)

/-- C3 is false as stated: the record `{"age_group": "10-20", "count": 1}`
parses (two digits, dash, two digits) but its range straddles the 0-14 and
15-24 buckets, so the bucket-search loop matches nothing and the count is
silently dropped — the output total is 0, not 1.  Total count is not
conserved. -/
theorem age_group_partition_counterexample :
    ¬ (((filter_and_group_injured_count_per_age_group [⟨"10-20", 1⟩]).map
          (fun r => r.count)).sum =
        (([⟨"10-20", 1⟩] : List AgeCount).map (fun r => r.count)).sum) := by
  decide

/-- C3 (amended): every output entry is one of the buckets
{unknown, 00-14, 15-24, 25-64, 65+}; and whenever every input record is
either unparsable (accumulated into "unknown") or parses to a range lying
inside a single fixed bucket, the reclassification conserves the total
count.  (A parsable range that straddles two fixed buckets is dropped, so
conservation does not hold unconditionally.) -/
theorem age_group_partition_of_bucketed (data : List AgeCount) :
    (∀ rec ∈ filter_and_group_injured_count_per_age_group data,
        rec.age_group = "unknown" ∨ rec.age_group = "00-14" ∨
        rec.age_group = "15-24" ∨ rec.age_group = "25-64" ∨
        rec.age_group = "65+") ∧
    ((∀ rec ∈ data, (recKey rec).isSome = true) →
      ((filter_and_group_injured_count_per_age_group data).map
          (fun r => r.count)).sum =
        (data.map (fun r => r.count)).sum) := by
  have h65 := fold_no_65_plus data
  have hnd := fold_keys_nodup data [] (by simp [keysOf])
  constructor
  · intro rec hrec
    unfold filter_and_group_injured_count_per_age_group at hrec
    rcases List.mem_map.mp hrec with ⟨p, hp, hpe⟩
    have hkeys : p.1 ∈ keysOf (dictDel (dictSet (data.foldl ageStep [])
        "65+" (dictGet (data.foldl ageStep []) "65-200")) "65-200") := by
      simpa [keysOf] using List.mem_map_of_mem (fun q => q.1) hp
    rcases rename_keys _ _ hnd h65 _ hkeys with ⟨hd, hne⟩
    have hag : rec.age_group = p.1 := by rw [← hpe]
    rcases hd with hd | hd
    · have hall2 := fold_keys_allowed_nil data _ hd
      simp only [allowedAgeKeys, List.mem_cons, List.not_mem_nil, or_false]
        at hall2
      rw [hag]
      rcases hall2 with h | h | h | h | h
      · exact Or.inl h
      · exact Or.inr (Or.inl h)
      · exact Or.inr (Or.inr (Or.inl h))
      · exact Or.inr (Or.inr (Or.inr (Or.inl h)))
      · exact absurd h hne
    · rw [hag, hd]
      simp
  · intro hall
    unfold filter_and_group_injured_count_per_age_group
    have hmap : ((dictDel (dictSet (data.foldl ageStep []) "65+"
        (dictGet (data.foldl ageStep []) "65-200")) "65-200").map
          (fun p => (⟨p.1, p.2⟩ : AgeCount))).map (fun r => r.count) =
        (dictDel (dictSet (data.foldl ageStep []) "65+"
          (dictGet (data.foldl ageStep []) "65-200")) "65-200").map
            (fun p => p.2) := by
      simp [List.map_map]
    rw [hmap]
    have : ((dictDel (dictSet (data.foldl ageStep []) "65+"
        (dictGet (data.foldl ageStep []) "65-200")) "65-200").map
          (fun p => p.2)).sum =
        dsum (dictDel (dictSet (data.foldl ageStep []) "65+"
          (dictGet (data.foldl ageStep []) "65-200")) "65-200") := rfl
    rw [this, rename_dsum _ h65, fold_dsum data [] hall]
    simp [dsum]

/-- C3 witness: the specification's worked example — "05-09" into 0-14,
"85+" into 65+, "garbled" into unknown — conserves the total 13. -/
theorem age_group_partition_witness :
    ((filter_and_group_injured_count_per_age_group
        [⟨"05-09", 10⟩, ⟨"85+", 2⟩, ⟨"garbled", 1⟩]).map
          (fun r => r.count)).sum =
      (([⟨"05-09", 10⟩, ⟨"85+", 2⟩, ⟨"garbled", 1⟩] : List AgeCount).map
        (fun r => r.count)).sum :=
  (age_group_partition_of_bucketed _).2 (by decide)

/-! ## Request context, widget identifiers and widgets (src 39-150) -/

/-- GPS coordinate of a news flash. -/
structure Gps where
  lon : ℚ
  lat : ℚ
deriving DecidableEq, Repr

/-- `RequestParams` (src 72-93).  Two slips of the source are kept in mind
but not modelled structurally: the constructor stores the id under the
misspelled attribute `news_flash_is` (kept as the field name here), and the
trailing comma on `self.resolution = resolution,` wraps the resolution in a
1-tuple — the claims under study never read that field back, so it is
carried as the plain string. -/
structure RequestParams where
  news_flash_is : Int
  location_text : String
  location_info : List (String × PyScalar)
  resolution : String
  gps : Gps
  start_time : MyDate
  end_time : MyDate
deriving DecidableEq, Repr

/-- A `WidgetId` enum member: its rank and stable name (src 39-69). -/
structure WidgetId where
  rank : Int
  name : String
deriving DecidableEq, Repr

namespace WId

def accident_count_by_severity : WidgetId := ⟨1, "accident_count_by_severity"⟩

def most_severe_accidents_table : WidgetId := ⟨2, "most_severe_accidents_table"⟩

def most_severe_accidents : WidgetId := ⟨3, "most_severe_accidents"⟩

def street_view : WidgetId := ⟨4, "street_view"⟩

def head_on_collisions_comparison : WidgetId := ⟨5, "head_on_collisions_comparison"⟩

def accident_count_by_accident_type : WidgetId := ⟨6, "accident_count_by_accident_type"⟩

def accidents_heat_map : WidgetId := ⟨7, "accidents_heat_map"⟩

def accident_count_by_accident_year : WidgetId := ⟨8, "accident_count_by_accident_year"⟩

def injured_count_by_accident_year : WidgetId := ⟨9, "injured_count_by_accident_year"⟩

def accident_count_by_day_night : WidgetId := ⟨10, "accident_count_by_day_night"⟩

def accidents_count_by_hour : WidgetId := ⟨11, "accidents_count_by_hour"⟩

def accident_count_by_road_light : WidgetId := ⟨12, "accident_count_by_road_light"⟩

def top_road_segments_accidents_per_km : WidgetId := ⟨13, "top_road_segments_accidents_per_km"⟩

def injured_count_per_age_group : WidgetId := ⟨14, "injured_count_per_age_group"⟩

def vision_zero : WidgetId := ⟨15, "vision_zero"⟩

def accident_count_by_driver_type : WidgetId := ⟨16, "accident_count_by_driver_type"⟩

def accident_count_by_car_type : WidgetId := ⟨17, "accident_count_by_car_type"⟩

def injured_accidents_with_pedestrians : WidgetId := ⟨18, "injured_accidents_with_pedestrians"⟩

def accident_severity_by_cross_location : WidgetId := ⟨19, "accident_severity_by_cross_location"⟩

def motorcycle_accidents_vs_all_accidents : WidgetId := ⟨20, "motorcycle_accidents_vs_all_accidents"⟩

def accidents_count_pedestrians_per_vehicle_street_vs_all : WidgetId :=
  ⟨21, "accidents_count_pedestrians_per_vehicle_street_vs_all"⟩

end WId

/-- A populated widget object (src 96-126): name, rank, items payload,
optional text and optional meta mapping.  Python's `None` and the empty
dict are both falsy and behave identically in `serialize`, so the absent
meta is modelled as the empty association list, and absent text as the
falsy `PyVal.none`.  Note the dataclass's generated `__init__` accepts
only `request_params` — every other field is `field(init=False)` — so the
`Widget(...)` constructor calls throughout the module raise `TypeError`
(modelled where those calls occur); this structure stands for the
populated object that `serialize` reads. -/
structure Widget where
  name : String
  rank : Int
  items : PyVal
  text : PyVal
  meta : List (String × PyVal)

/-- `Widget.serialize` (src 114-126): `{"name": ..., "data": {"items": ...,
"text"?: ...}, "meta": {...}}`; `data.text` is included only when the text
is truthy, the meta dict is the widget's meta (or `{}` when falsy), and
`meta["rank"]` is then always set to the widget's rank. -/
def Widget.serialize (w : Widget) : PyVal :=
  .dict [("name", .str w.name),
         ("data", .dict ([("items", w.items)] ++
            if truthy w.text then [("text", w.text)] else [])),
         ("meta", .dict (pvDictSet w.meta "rank" (.int w.rank)))]

theorem pyLookup_pvDictSet (l : List (String × PyVal)) (k : String) (v : PyVal) :
    pyLookup (pvDictSet l k v) k = some v := by
  induction l with
  | nil => simp [pvDictSet, pyLookup, List.find?]
  | cons p rest ih =>
      by_cases hk : p.1 == k
      · have h1 : pvDictSet (p :: rest) k v = (p.1, v) :: rest := by
          simp [pvDictSet, hk]
        rw [h1]
        simp [pyLookup, List.find?, hk]
      · have h1 : pvDictSet (p :: rest) k v = p :: pvDictSet rest k v := by
          simp [pvDictSet, hk]
        rw [h1]
        simpa [pyLookup, List.find?, hk] using ih

/-- C9: `serialize` always produces the envelope
`{name, data: {items, text?}, meta: {rank, ...}}`: `data.items` is present
for every widget, `data.text` is omitted when the text is absent, the meta
mapping reduces to just the injected rank when the widget's meta is absent,
and `meta.rank` always equals the widget's rank. -/
theorem widget_serialize_shape (w : Widget) :
    ∃ d m, w.serialize =
        .dict [("name", .str w.name), ("data", .dict d), ("meta", .dict m)] ∧
      pyLookup d "items" = some w.items ∧
      (truthy w.text = false → pyLookup d "text" = none) ∧
      pyLookup m "rank" = some (.int w.rank) ∧
      (w.meta = [] → m = [("rank", .int w.rank)]) := by
  refine ⟨_, _, rfl, ?_, ?_, ?_, ?_⟩
  · simp [pyLookup, List.find?]
  · intro ht
    simp [ht, pyLookup, List.find?]
  · exact pyLookup_pvDictSet _ _ _
  · intro hm
    rw [hm]
    rfl

/-- C9 witness: the shape at a concrete widget with empty items, no text
and no meta. -/
theorem widget_serialize_shape_witness :
    ∃ d m, (Widget.mk "vision_zero" 15 (.list []) .none []).serialize =
        .dict [("name", .str "vision_zero"), ("data", .dict d),
               ("meta", .dict m)] ∧
      pyLookup d "items" = some (.list []) ∧
      (truthy PyVal.none = false → pyLookup d "text" = none) ∧
      pyLookup m "rank" = some (.int 15) ∧
      (([] : List (String × PyVal)) = [] → m = [("rank", .int 15)]) :=
  widget_serialize_shape (Widget.mk "vision_zero" 15 (.list []) .none [])

/-! ## Widget registry and generator (src 129-150, 664-681) -/

/-- A registry entry `WidgetDef` (src 129-150).  The source's generator
callables receive the whole `WidgetDef` back as their second argument and
only ever read its `widget_id`; the embedding hands them the `WidgetId`
directly, which sidesteps the structural self-reference.  A generator is
fallible: an exception it raises propagates out of the generation loop. -/
structure WidgetDef where
  widget_id : WidgetId
  generate_items : RequestParams → WidgetId → Except PyErr Widget
  is_included_in_response : Option (Widget → Bool)
  is_included_in_cache : Bool

/-- The body of the `generate_widgets` loop over the cache-filtered
descriptors: the generator runs first (src 678) — its exception aborts the
whole call — and the widget is then serialized only when
`item.is_included_in_response and item.is_included_in_response(w)` is
truthy, which is `False` whenever the inclusion predicate is `None`. -/
def generateWidgetsLoop (request_params : RequestParams) :
    List WidgetDef → Except PyErr (List PyVal)
  | [] => .ok []
  | wd :: rest =>
      match wd.generate_items request_params wd.widget_id with
      | .error e => .error e
      | .ok item_widget =>
          match generateWidgetsLoop request_params rest with
          | .error e => .error e
          | .ok res =>
              match wd.is_included_in_response with
              | some pred =>
                  if pred item_widget then .ok (item_widget.serialize :: res)
                  else .ok res
              | none => .ok res

/-- `generate_widgets` (src 673-681): keep the descriptors whose
cache-eligibility equals `to_cache`, then run the generation loop. -/
def generate_widgets (request_params : RequestParams)
    (widgets_def : List WidgetDef) (to_cache : Bool := true) :
    Except PyErr (List PyVal) :=
  generateWidgetsLoop request_params
    (widgets_def.filter (fun wd => wd.is_included_in_cache == to_cache))

/-! ## The data-store model

Rows of the three tables the module queries (`NewsFlash`,
`AccidentMarkerView`, `InvolvedMarkerView`, `RoadSegments`), restricted to
the columns the module reads.  Field defaults only shorten concrete test
rows; they carry no semantics. -/

structure NewsFlashRec where
  id : Int
  resolution : Option String := none
  lon : ℚ := 0
  lat : ℚ := 0
  road1 : Option Int := none
  road2 : Option Int := none
  road_segment_name : Option String := none
  yishuv_name : Option String := none
  street1_hebrew : Option String := none
  district_hebrew : Option String := none
  region_hebrew : Option String := none
  location : String := ""
deriving DecidableEq, Repr

structure AccidentRow where
  id : Int := 0
  provider_code : Int := 1
  accident_timestamp : Timestamp := ⟨⟨2020, 1, 1⟩, 0⟩
  accident_severity : Int := 3
  accident_severity_hebrew : String := "קלה"
  accident_type_hebrew : String := ""
  accident_year : Int := 2020
  accident_hour : Int := 12
  day_night_hebrew : String := ""
  road_light_hebrew : String := ""
  road_type : Int := 0
  road1 : Int := 0
  road2 : Int := 0
  road_segment_number : Int := 0
  road_segment_name : String := ""
  yishuv_name : String := ""
  street1_hebrew : String := ""
  district_hebrew : String := ""
  region_hebrew : String := ""
  longitude : ℚ := 0
  latitude : ℚ := 0
deriving DecidableEq, Repr

structure InvolvedRow where
  provider_code : Int := 1
  accident_timestamp : Timestamp := ⟨⟨2020, 1, 1⟩, 0⟩
  accident_id : Int := 0
  accident_year : Int := 2020
  injury_severity : Int := 3
  age_group_hebrew : String := ""
  involve_vehicle_type : Int := 0
  road1 : Int := 0
  road_segment_name : String := ""
  street1_hebrew : String := ""
  accident_yishuv_name : String := ""
  accident_district_hebrew : String := ""
  accident_region_hebrew : String := ""
deriving DecidableEq, Repr

/-- An exact 4-decimal fixed-point number: the value is `units / 10000`.
The store's decimal columns and the `Numeric(10, 4)` cast of the ratio are
exact at this scale, so scale-4 integers model them without loss. -/
structure Dec4 where
  units : Int
deriving DecidableEq, Repr

def Dec4.sub (a b : Dec4) : Dec4 := ⟨a.units - b.units⟩

/-- Round-half-up integer division, `⌊a/b + 1/2⌋` for positive `b`
(a zero divisor would be a division-by-zero error in the store; the model
returns 0 there). -/
def rdivHalfUp (a b : Int) : Int :=
  if b = 0 then 0 else (2 * a + b).fdiv (2 * b)

/-- `count / length` cast to `Numeric(10, 4)`: an integer count divided by
a scale-4 length, rounded half-up back to scale 4. -/
def ratioDec4 (count : Int) (len : Dec4) : Dec4 :=
  ⟨rdivHalfUp (count * 10000 * 10000) len.units⟩

structure RoadSegment where
  road : Int
  segment : Int
  from_km : Dec4
  to_km : Dec4
deriving DecidableEq, Repr

structure Db where
  news_flashes : List NewsFlashRec := []
  accidents : List AccidentRow := []
  involved : List InvolvedRow := []
  segments : List RoadSegment := []
deriving DecidableEq, Repr

/-- A filter value: a scalar equality test or an `IN` membership list. -/
inductive FilterVal where
  | scalar (v : PyScalar)
  | listVal (vs : List PyScalar)
deriving DecidableEq, Repr

abbrev Filters := List (String × FilterVal)

/-- `filters[k] = v` with Python dict semantics (update or append). -/
def dictSetFv : Filters → String → FilterVal → Filters
  | [], k, v => [(k, v)]
  | (k0, v0) :: rest, k, v =>
      if k0 == k then (k0, v) :: rest else (k0, v0) :: dictSetFv rest k v

/-- Location dictionaries carry scalar values; as filters they are
equality tests. -/
def scalarFilters (loc : List (String × PyScalar)) : Filters :=
  loc.map (fun p => (p.1, .scalar p.2))

/-- Whether a column value satisfies a filter value (`==` or `IN`). -/
def fvMatches (field : Option PyScalar) (v : FilterVal) : Bool :=
  match field, v with
  | some f, .scalar s => f == s
  | some f, .listVal l => l.contains f
  | none, _ => false

/-- Column access on an accident row by SQL column name; `none` for a
column the view does not have (`getattr` failure — a programming error in
the source, never reached by the filters the module builds). -/
def accField (r : AccidentRow) : String → Option PyScalar
  | "provider_code" => some (.i r.provider_code)
  | "accident_severity" => some (.i r.accident_severity)
  | "accident_severity_hebrew" => some (.s r.accident_severity_hebrew)
  | "accident_type_hebrew" => some (.s r.accident_type_hebrew)
  | "accident_year" => some (.i r.accident_year)
  | "accident_hour" => some (.i r.accident_hour)
  | "day_night_hebrew" => some (.s r.day_night_hebrew)
  | "road_light_hebrew" => some (.s r.road_light_hebrew)
  | "road_type" => some (.i r.road_type)
  | "road1" => some (.i r.road1)
  | "road2" => some (.i r.road2)
  | "road_segment_number" => some (.i r.road_segment_number)
  | "road_segment_name" => some (.s r.road_segment_name)
  | "yishuv_name" => some (.s r.yishuv_name)
  | "street1_hebrew" => some (.s r.street1_hebrew)
  | "district_hebrew" => some (.s r.district_hebrew)
  | "region_hebrew" => some (.s r.region_hebrew)
  | _ => none

/-- Column access on an involved-party row by SQL column name. -/
def invField (r : InvolvedRow) : String → Option PyScalar
  | "provider_code" => some (.i r.provider_code)
  | "accident_id" => some (.i r.accident_id)
  | "accident_year" => some (.i r.accident_year)
  | "injury_severity" => some (.i r.injury_severity)
  | "age_group_hebrew" => some (.s r.age_group_hebrew)
  | "involve_vehicle_type" => some (.i r.involve_vehicle_type)
  | "road1" => some (.i r.road1)
  | "road_segment_name" => some (.s r.road_segment_name)
  | "street1_hebrew" => some (.s r.street1_hebrew)
  | "accident_yishuv_name" => some (.s r.accident_yishuv_name)
  | "accident_district_hebrew" => some (.s r.accident_district_hebrew)
  | "accident_region_hebrew" => some (.s r.accident_region_hebrew)
  | _ => none

def dateToTs (d : MyDate) : Timestamp := ⟨d, 0⟩

/-- The inclusive time window of `get_query` (src 173-186): absent bounds
skip the predicate; a date bound compares as its midnight instant. -/
def inWindow (ts : Timestamp) (startT endT : Option MyDate) : Bool :=
  (match startT with
   | some st => tsLe (dateToTs st) ts
   | none => true) &&
  (match endT with
   | some et => tsLe ts (dateToTs et)
   | none => true)

/-- `get_query` on the accidents table (src 173-186): timestamp window and
AND-combined equality/IN filters. -/
def get_query_acc (rows : List AccidentRow) (filters : Filters)
    (startT endT : Option MyDate) : List AccidentRow :=
  rows.filter (fun r =>
    inWindow r.accident_timestamp startT endT &&
      filters.all (fun p => fvMatches (accField r p.1) p.2))

/-- `get_query` on the involved-parties table. -/
def get_query_inv (rows : List InvolvedRow) (filters : Filters)
    (startT endT : Option MyDate) : List InvolvedRow :=
  rows.filter (fun r =>
    inWindow r.accident_timestamp startT endT &&
      filters.all (fun p => fvMatches (invField r p.1) p.2))

/-- Modelled from the spec: the two CBS provider-source codes
(`BE_CONST.CBS_ACCIDENT_TYPE_1_CODE` and `..._TYPE_3_CODE` live in
`anyway.backend_constants`, outside these sources).  Two distinct codes
stand for the two report channels; their concrete values are immaterial to
every claim below. -/
def cbsCode1 : Int := 1

def cbsCode3 : Int := 3

def providerFilter : FilterVal := .listVal [.i cbsCode1, .i cbsCode3]

/-- SQL `GROUP BY key` with `COUNT`: one record per distinct key value. -/
def groupCountBy {α : Type} (rows : List α) (key : α → PyScalar) :
    List (PyScalar × Int) :=
  ((rows.map key).dedup).map (fun k =>
    (k, ((rows.filter (fun r => key r == k)).length : Int)))

def accGroupVal (r : AccidentRow) (col : String) : PyScalar :=
  (accField r col).getD (.i 0)

def invGroupVal (r : InvolvedRow) (col : String) : PyScalar :=
  (invField r col).getD (.i 0)

/-- `get_accidents_stats` (src 243-261) on the accidents table, grouped:
force the provider-code restriction (`filters["provider_code"] = [...]`
overwrites any caller-supplied value), filter, group and count. -/
def get_accidents_stats_acc (rows : List AccidentRow) (filters : Filters)
    (group_col : String) (startT endT : Option MyDate) :
    List (PyScalar × Int) :=
  let filters2 := dictSetFv filters "provider_code" providerFilter
  groupCountBy (get_query_acc rows filters2 startT endT)
    (fun r => accGroupVal r group_col)

/-- `get_accidents_stats` on the involved-parties table, grouped. -/
def get_accidents_stats_inv (rows : List InvolvedRow) (filters : Filters)
    (group_col : String) (startT endT : Option MyDate) :
    List (PyScalar × Int) :=
  let filters2 := dictSetFv filters "provider_code" providerFilter
  groupCountBy (get_query_inv rows filters2 startT endT)
    (fun r => invGroupVal r group_col)

/-! ## Top road segments by accident density
(get_top_road_segments_accidents_per_km, src 207-240) -/

def intercityResolution : String := "כביש בינעירוני"

/-- One result row: segment name, accident count, segment length and the
4-decimal accidents-per-km ratio. -/
structure TopSegmentEntry where
  road_segment_name : String
  total_accidents : Int
  segment_length : Dec4
  accidents_per_km : Dec4
deriving DecidableEq, Repr

/-- The Python function returns an empty dict `{}` outside the inter-city
resolution and a list of records otherwise. -/
inductive TopSegmentsResult where
  | emptyDict
  | records (l : List TopSegmentEntry)
deriving DecidableEq, Repr

/-- Weakly-descending order on entries by their ratio (SQL
`ORDER BY accidents_per_km DESC`). -/
def ratioGe (a b : TopSegmentEntry) : Prop :=
  b.accidents_per_km.units ≤ a.accidents_per_km.units

/-- Strictly-descending order on entries by their ratio. -/
def ratioGt (a b : TopSegmentEntry) : Prop :=
  b.accidents_per_km.units < a.accidents_per_km.units

instance : DecidableRel ratioGe := fun a b =>
  inferInstanceAs (Decidable (b.accidents_per_km.units ≤ a.accidents_per_km.units))

instance : DecidableRel ratioGt := fun a b =>
  inferInstanceAs (Decidable (b.accidents_per_km.units < a.accidents_per_km.units))

instance : IsTotal TopSegmentEntry ratioGe :=
  ⟨fun a b => le_total b.accidents_per_km.units a.accidents_per_km.units⟩

instance : IsTrans TopSegmentEntry ratioGe :=
  ⟨fun _ _ _ h1 h2 => le_trans h2 h1⟩

/-- `get_top_road_segments_accidents_per_km` (src 207-240): empty dict
outside the inter-city resolution; otherwise join accidents against
segments on (road, segment number) restricted to the event's road, group
by (segment name, from_km, to_km), count, compute the 4-decimal ratio
count/(to_km - from_km), order by the ratio descending and cap at `limit`.
The source's `.filter(AccidentMarkerView.road_segment_name is not None)` is
Python object identity on the column object — constant `True`, a no-op —
and `get_query` is called with `filters=None`, so no provider-code
restriction applies here. -/
def get_top_road_segments_accidents_per_km (db : Db) (resolution : String)
    (location_road1 : Int) (start_time end_time : Option MyDate := none)
    (limit : Nat := 5) : TopSegmentsResult :=
  if resolution ≠ intercityResolution then .emptyDict
  else
    let base := get_query_acc db.accidents [] start_time end_time
    let joined := base.flatMap (fun a =>
      (db.segments.filter (fun s =>
        a.road1 == s.road && a.road_segment_number == s.segment &&
          a.road1 == location_road1)).map (fun s => (a, s)))
    let keys := (joined.map (fun pr =>
      (pr.1.road_segment_name, pr.2.from_km, pr.2.to_km))).dedup
    let entries := keys.map (fun k =>
      let n := (joined.filter (fun pr =>
        (pr.1.road_segment_name, pr.2.from_km, pr.2.to_km) == k)).length
      { road_segment_name := k.1
        total_accidents := (n : Int)
        segment_length := k.2.2.sub k.2.1
        accidents_per_km := ratioDec4 (n : Int) (k.2.2.sub k.2.1) })
    .records ((entries.insertionSort ratioGe).take limit)

/-- C6 (amended): the function returns the empty result whenever the
resolution is not the inter-city road resolution; otherwise the result
holds at most `limit` entries ordered non-increasingly (weakly descending)
by the 4-decimal accidents-per-km ratio.  (Strict descent fails on ties.) -/
theorem top_segments_spec (db : Db) (resolution : String)
    (location_road1 : Int) (startT endT : Option MyDate) (limit : Nat) :
    (resolution ≠ intercityResolution →
      get_top_road_segments_accidents_per_km db resolution location_road1
        startT endT limit = .emptyDict) ∧
    (∀ l, get_top_road_segments_accidents_per_km db resolution
        location_road1 startT endT limit = .records l →
      l.length ≤ limit ∧ l.Sorted ratioGe) := by
  constructor
  · intro h
    simp [get_top_road_segments_accidents_per_km, h]
  · intro l hl
    unfold get_top_road_segments_accidents_per_km at hl
    by_cases h : resolution ≠ intercityResolution
    · rw [if_pos h] at hl
      cases hl
    · rw [if_neg h] at hl
      injection hl with hl
      subst hl
      constructor
      · exact List.length_take_le _ _
      · exact (List.sorted_insertionSort ratioGe _).sublist
          (List.take_sublist _ _)

/-- The database of the C6 counterexample: two distinct segments of road 1,
each 1 km long, each holding exactly one accident — two equal ratios. -/
def c6db : Db :=
  { accidents := [{ road1 := 1, road_segment_number := 1,
                    road_segment_name := "A" },
                  { road1 := 1, road_segment_number := 2,
                    road_segment_name := "B" }]
    segments := [⟨1, 1, ⟨0⟩, ⟨10000⟩⟩, ⟨1, 2, ⟨0⟩, ⟨10000⟩⟩] }

/-- C6 is false as stated: on `c6db` the inter-city query returns two
entries with the same accidents-per-km ratio, so the output is not
strictly descending by the ratio (the SQL `ORDER BY ... DESC` is only
weakly descending). -/
theorem top_segments_counterexample :
    get_top_road_segments_accidents_per_km c6db intercityResolution 1
        none none 5 =
      .records [⟨"A", 1, ⟨10000⟩, ⟨10000⟩⟩, ⟨"B", 1, ⟨10000⟩, ⟨10000⟩⟩] ∧
    ¬ ([(⟨"A", 1, ⟨10000⟩, ⟨10000⟩⟩ : TopSegmentEntry),
        ⟨"B", 1, ⟨10000⟩, ⟨10000⟩⟩].Sorted ratioGt) := by
  constructor
  · rfl
  · intro h
    rcases List.pairwise_cons.mp h with ⟨h1, _⟩
    have h2 := h1 _ (List.mem_singleton.mpr rfl)
    exact absurd h2 (by norm_num [ratioGt])

/-- C6 witness: the amended statement applied to the counterexample
database — both the non-inter-city emptiness and the bound/ordering of the
inter-city result, evaluated concretely. -/
theorem top_segments_spec_witness :
    get_top_road_segments_accidents_per_km c6db "עיר" 1 none none 5 =
        .emptyDict ∧
    ([(⟨"A", 1, ⟨10000⟩, ⟨10000⟩⟩ : TopSegmentEntry), ⟨"B", 1, ⟨10000⟩, ⟨10000⟩⟩].length ≤ 5 ∧
      [(⟨"A", 1, ⟨10000⟩, ⟨10000⟩⟩ : TopSegmentEntry), ⟨"B", 1, ⟨10000⟩, ⟨10000⟩⟩].Sorted ratioGe) :=
  ⟨(top_segments_spec c6db "עיר" 1 none none 5).1 (by decide),
   (top_segments_spec c6db intercityResolution 1 none none 5).2 _ (by rfl)⟩

/-! ## Request context builder
(extract_news_flash_location, get_news_flash_location_text,
get_latest_accident_date, get_request_params; src 153-170, 488-528,
597-606, 684-720) -/

/-- The lookback argument as it reaches `get_request_params` from the API
layer: an integer or a string. -/
inductive PyArg where
  | int (n : Int)
  | str (s : String)
deriving DecidableEq, Repr

/-- A non-empty all-digit character list as a number. -/
def digitsToNat (l : List Char) : Option Nat :=
  match l with
  | [] => none
  | _ =>
      if l.all Char.isDigit then
        some (l.foldl (fun acc c => 10 * acc + digitVal c) 0)
      else none

/-- An optionally signed decimal numeral. -/
def parseIntOfString (s : String) : Option Int :=
  match s.data with
  | '-' :: rest => (digitsToNat rest).map (fun n => -(n : Int))
  | '+' :: rest => (digitsToNat rest).map (fun n => (n : Int))
  | l => (digitsToNat l).map (fun n => (n : Int))

/-- Python `int(x)` on the argument domain above: an int is returned
unchanged; a string is parsed as an optionally signed decimal numeral and
raises `ValueError` otherwise (surrounding whitespace is elided from the
model). -/
def pyIntOfArg : PyArg → Except PyErr Int
  | .int n => .ok n
  | .str s =>
      match parseIntOfString s with
      | some n => .ok n
      | none => .error .valueError

theorem pyIntOfArg_error (arg : PyArg) (e : PyErr)
    (h : pyIntOfArg arg = .error e) : e = .valueError := by
  rcases arg with n | s
  · cases h
  · have h2 : (match parseIntOfString s with
        | some n => (Except.ok n : Except PyErr Int)
        | none => Except.error PyErr.valueError) = Except.error e := h
    rcases hp : parseIntOfString s with _ | n
    · rw [hp] at h2
      injection h2 with h2
      exact h2.symm
    · rw [hp] at h2
      cases h2

/-- Modelled from the spec: `resolution_dict` (`anyway.parsers`, outside
these sources) maps each geographic resolution to the news-flash fields
carrying its location; the spec lists country/region/city/street/inter-city
segment/intersection resolutions.  Claims depend on the table only through
which fields reach the location dictionary. -/
def resolutionDict : List (String × List String) :=
  [("מחוז", ["district_hebrew"]),
   ("נפה", ["region_hebrew"]),
   ("עיר", ["yishuv_name"]),
   ("רחוב", ["yishuv_name", "street1_hebrew"]),
   ("כביש בינעירוני", ["road1", "road_segment_name"]),
   ("צומת בינעירוני", ["road1", "road2"])]

/-- A news-flash location field by name (`getattr(news_flash_obj, field)`),
restricted to the fields `resolutionDict` can name. -/
def nfLocField (nf : NewsFlashRec) : String → Option PyScalar
  | "district_hebrew" => nf.district_hebrew.map .s
  | "region_hebrew" => nf.region_hebrew.map .s
  | "yishuv_name" => nf.yishuv_name.map .s
  | "street1_hebrew" => nf.street1_hebrew.map .s
  | "road1" => nf.road1.map .i
  | "road2" => nf.road2.map .i
  | "road_segment_name" => nf.road_segment_name.map .s
  | _ => none

/-- `db.session.query(NewsFlash).filter(NewsFlash.id == id).first()`. -/
def findNewsFlash (db : Db) (news_flash_id : Int) : Option NewsFlashRec :=
  db.news_flashes.find? (fun nf => nf.id == news_flash_id)

/-- The result of `extract_news_flash_location`: the source stores the
resolution under the `"resolution"` key of the same `data` dict and
`get_request_params` pops it back out; the embedding carries it as a
separate field. -/
structure LocationResult where
  resolution : String
  data : List (String × PyScalar)
  gps : Gps
deriving DecidableEq, Repr

/-- `extract_news_flash_location` (src 153-170): `None` for a missing
flash, a missing/falsy resolution, or a resolution outside
`resolution_dict`; otherwise the resolution, the non-None location fields
of the resolution, and the GPS coordinates. -/
def extract_news_flash_location (db : Db) (news_flash_id : Int) :
    Option LocationResult :=
  match findNewsFlash db news_flash_id with
  | none => none
  | some nf =>
      match nf.resolution with
      | none => none
      | some res =>
          if res == "" then none
          else
            match resolutionDict.lookup res with
            | none => none
            | some fields =>
                some { resolution := res
                       data := fields.filterMap (fun f =>
                         (nfLocField nf f).map (fun v => (f, v)))
                       gps := { lon := nf.lon, lat := nf.lat } }

/-- `get_news_flash_location_text` (src 490-518): the resolution-specific
display text; a missing news flash raises `AttributeError`
(`None.serialize()`); `str(int(road))` of a falsy road (None or 0) is the
empty string. -/
def get_news_flash_location_text (db : Db) (news_flash_id : Int) :
    Except PyErr String :=
  match findNewsFlash db news_flash_id with
  | none => .error .attributeError
  | some nf =>
      let resolution := nf.resolution.getD ""
      let yishuv_name := nf.yishuv_name.getD ""
      let road1 :=
        match nf.road1 with
        | some r => if r == 0 then "" else toString r
        | none => ""
      let road2 :=
        match nf.road2 with
        | some r => if r == 0 then "" else toString r
        | none => ""
      let street1_hebrew := nf.street1_hebrew.getD ""
      let road_segment_name := nf.road_segment_name.getD ""
      .ok (if resolution == "כביש בינעירוני" && road1 != "" &&
              road_segment_name != "" then
            "כביש " ++ road1 ++ " במקטע " ++ road_segment_name
          else if resolution == "עיר" && yishuv_name == "" then nf.location
          else if resolution == "עיר" && yishuv_name != "" then yishuv_name
          else if resolution == "צומת בינעירוני" && road1 != "" &&
              road2 != "" then
            "צומת כביש " ++ road1 ++ " עם כביש " ++ road2
          else if resolution == "צומת בינעירוני" && road1 != "" &&
              road_segment_name != "" then
            "כביש " ++ road1 ++ " במקטע " ++ road_segment_name
          else if resolution == "רחוב" && yishuv_name != "" &&
              street1_hebrew != "" then
            " רחוב " ++ street1_hebrew ++ " ב" ++ yishuv_name
          else nf.location)

/-- One step of SQL `MAX` over timestamps. -/
def maxTsStep (acc : Option Timestamp) (t : Timestamp) : Option Timestamp :=
  match acc with
  | none => some t
  | some t0 => if tsLe t0 t then some t else some t0

/-- `get_latest_accident_date` (src 597-606): the maximum
`accident_timestamp` over the whole accidents table.  The source assembles
a provider-code filter dict but never applies it to the query, so the
aggregate is unfiltered; `MAX` of an empty table is NULL (`none`). -/
def get_latest_accident_date (db : Db) : Option Timestamp :=
  (db.accidents.map (fun r => r.accident_timestamp)).foldl maxTsStep none

theorem maxTsStep_ge (acc : Option Timestamp) (x : Timestamp) :
    ∃ m, maxTsStep acc x = some m ∧ tsLe x m = true ∧
      (∀ t0, acc = some t0 → tsLe t0 m = true) := by
  rcases acc with _ | t0
  · exact ⟨x, rfl, tsLe_refl x, by intro t0 h0; cases h0⟩
  · by_cases hc : tsLe t0 x = true
    · refine ⟨x, by simp [maxTsStep, hc], tsLe_refl x, ?_⟩
      intro t1 h1
      injection h1 with h1
      subst h1
      exact hc
    · have hx : tsLe x t0 = true := by
        rcases tsLe_total x t0 with h | h
        · exact h
        · exact absurd h hc
      refine ⟨t0, by simp [maxTsStep, hc], hx, ?_⟩
      intro t1 h1
      injection h1 with h1
      subst h1
      exact tsLe_refl _

theorem foldl_maxTsStep_spec (l : List Timestamp) :
    ∀ acc ts, l.foldl maxTsStep acc = some ts →
      (ts ∈ l ∨ acc = some ts) ∧
      (∀ x ∈ l, tsLe x ts = true) ∧
      (∀ t0, acc = some t0 → tsLe t0 ts = true) := by
  induction l with
  | nil =>
      intro acc ts h
      simp only [List.foldl_nil] at h
      refine ⟨Or.inr h, by simp, ?_⟩
      intro t0 h0
      rw [h0] at h
      injection h with h
      subst h
      exact tsLe_refl t0
  | cons x xs ih =>
      intro acc ts h
      simp only [List.foldl_cons] at h
      obtain ⟨m, hm, hxm, haccm⟩ := maxTsStep_ge acc x
      obtain ⟨h1, h2, h3⟩ := ih (maxTsStep acc x) ts h
      have hmts : tsLe m ts = true := h3 m hm
      refine ⟨?_, ?_, ?_⟩
      · rcases h1 with h1 | h1
        · exact Or.inl (List.mem_cons_of_mem _ h1)
        · rw [hm] at h1
          injection h1 with h1
          rcases acc with _ | t0
          · have : x = ts := by
              have : m = x := by
                have := hm
                simp [maxTsStep] at this
                exact this.symm
              rw [← h1, this]
            exact Or.inl (this ▸ List.mem_cons_self x xs)
          · by_cases hc : tsLe t0 x = true
            · have hmx : m = x := by
                have := hm
                simp [maxTsStep, hc] at this
                exact this.symm
              exact Or.inl ((hmx ▸ h1 : x = ts) ▸ List.mem_cons_self x xs)
            · have hmt0 : m = t0 := by
                have := hm
                simp [maxTsStep, hc] at this
                exact this.symm
              exact Or.inr (by rw [hmt0] at h1; rw [h1])
      · intro y hy
        rcases List.mem_cons.mp hy with hy | hy
        · subst hy
          exact tsLe_trans y m ts hxm hmts
        · exact h2 y hy
      · intro t0 h0
        exact tsLe_trans t0 m ts (haccm t0 h0) hmts

/-- When the global aggregate yields a timestamp, it is a timestamp of the
whole accidents table and dominates every accident timestamp in the
dataset. -/
theorem latest_is_global_max (db : Db) (ts : Timestamp)
    (h : get_latest_accident_date db = some ts) :
    ts ∈ db.accidents.map (fun r => r.accident_timestamp) ∧
      ∀ r ∈ db.accidents, tsLe r.accident_timestamp ts = true := by
  unfold get_latest_accident_date at h
  obtain ⟨h1, h2, _⟩ :=
    foldl_maxTsStep_spec (db.accidents.map (fun r => r.accident_timestamp))
      none ts h
  refine ⟨?_, ?_⟩
  · rcases h1 with h1 | h1
    · exact h1
    · cases h1
  · intro r hr
    exact h2 _ (List.mem_map_of_mem _ hr)

/-- `get_request_params` (src 684-720): validate and convert the lookback,
resolve the event location, derive the display text, reject an empty
location dictionary, then build the time window from the global latest
accident date (`end`) and January 1 of `end.year + 1 - years` (`start`).
`except ValueError: return None` only wraps the `int()` conversion; the
later `datetime.date` construction and the `.to_pydatetime()` call on a
NULL aggregate can still raise.  The `if resolution is None` check is
vacuous: the extract step guarantees a non-None resolution.
`all(value is None for value in location_info.values())` holds exactly
when the dictionary is empty, since the extract step only inserts non-None
fields. -/
def get_request_params (db : Db) (news_flash_id : Int)
    (number_of_years_ago : PyArg) : Except PyErr (Option RequestParams) :=
  match pyIntOfArg number_of_years_ago with
  | .error .valueError => .ok none
  | .error e => .error e
  | .ok years =>
      if years < 0 ∨ years > 100 then .ok none
      else
        match extract_news_flash_location db news_flash_id with
        | none => .ok none
        | some loc =>
            match get_news_flash_location_text db news_flash_id with
            | .error e => .error e
            | .ok location_text =>
                if loc.data.isEmpty then .ok none
                else
                  match get_latest_accident_date db with
                  | none => .error .attributeError
                  | some last_accident_date =>
                      let end_time := last_accident_date.date
                      match mkDate (end_time.year + 1 - years) 1 1 with
                      | .error e => .error e
                      | .ok start_time =>
                          .ok (some { news_flash_is := news_flash_id
                                      location_text := location_text
                                      location_info := loc.data
                                      resolution := loc.resolution
                                      gps := loc.gps
                                      start_time := start_time
                                      end_time := end_time })

theorem mkDate_ok (y : Int) (m d : Nat) (dt : MyDate)
    (h : mkDate y m d = .ok dt) : dt = ⟨y, m, d⟩ := by
  unfold mkDate at h
  split at h
  · injection h with h
    exact h.symm
  · cases h

/-- C7: for every lookback argument that is not an integer in [0, 100] —
either the `int()` conversion raises `ValueError` (caught), or the
converted value lies outside [0, 100] — `get_request_params` returns
`None` ("not found") and raises no exception. -/
theorem invalid_years_ago_yields_none (db : Db) (news_flash_id : Int)
    (arg : PyArg)
    (h : ∀ n : Int, pyIntOfArg arg = .ok n → n < 0 ∨ 100 < n) :
    get_request_params db news_flash_id arg = .ok none := by
  unfold get_request_params
  rcases ha : pyIntOfArg arg with e | n
  · have he : e = .valueError := pyIntOfArg_error arg e ha
    subst he
    simp [ha]
  · have hn : n < 0 ∨ n > 100 := h n ha
    simp only [ha]
    rw [if_pos hn]

/-- C7 witness: the out-of-range lookback 101 yields `None` on the empty
database. -/
theorem invalid_years_ago_witness :
    get_request_params {} 0 (.int 101) = .ok none :=
  invalid_years_ago_yields_none {} 0 (.int 101)
    (by
      intro n hn
      simp [pyIntOfArg] at hn
      omega)

/-- C4: whenever `get_request_params` succeeds, the context's end date is
the date of the dataset's global maximum accident timestamp — an aggregate
over the entire accidents table, not scoped to the event's location — and
the start date is January 1 of `endYear + 1 - yearsAgo`. -/
theorem request_params_time_window (db : Db) (news_flash_id : Int)
    (years : Int) (rp : RequestParams)
    (h : get_request_params db news_flash_id (.int years) = .ok (some rp)) :
    (∃ ts, ts ∈ db.accidents.map (fun r => r.accident_timestamp) ∧
      (∀ r ∈ db.accidents, tsLe r.accident_timestamp ts = true) ∧
      rp.end_time = ts.date) ∧
    rp.start_time = ⟨rp.end_time.year + 1 - years, 1, 1⟩ := by
  unfold get_request_params at h
  simp only [pyIntOfArg] at h
  split at h
  · exact absurd h (by simp)
  · split at h
    · exact absurd h (by simp)
    · split at h
      · exact absurd h (by simp)
      · split at h
        · exact absurd h (by simp)
        · split at h
          · exact absurd h (by simp)
          · rename_i years0 hy loc hloc txt htxt hne last hlast
            split at h
            · exact absurd h (by simp)
            · rename_i start hstart
              injection h with h
              injection h with h
              subst h
              have hmax := latest_is_global_max db last hlast
              refine ⟨⟨last, hmax.1, hmax.2, rfl⟩, ?_⟩
              exact mkDate_ok _ _ _ _ hstart

/-- The C4 witness database: one city-resolved news flash, one accident
dated 2020-06-15. -/
def db7 : Db :=
  { news_flashes := [{ id := 7, resolution := some "עיר",
                       yishuv_name := some "תל אביב",
                       location := "תל אביב" }]
    accidents := [{ accident_timestamp := ⟨⟨2020, 6, 15⟩, 0⟩ }] }

/-- The request context `get_request_params db7 7 3` builds. -/
def rp7 : RequestParams :=
  { news_flash_is := 7
    location_text := "תל אביב"
    location_info := [("yishuv_name", PyScalar.s "תל אביב")]
    resolution := "עיר"
    gps := { lon := 0, lat := 0 }
    start_time := ⟨2018, 1, 1⟩
    end_time := ⟨2020, 6, 15⟩ }

/-- C4 witness: on a dataset whose latest accident is 2020-06-15, a 3-year
lookback yields end 2020-06-15 and start 2018-01-01 — the specification's
worked example. -/
theorem request_params_time_window_witness :
    (∃ ts, ts ∈ db7.accidents.map (fun r => r.accident_timestamp) ∧
      (∀ r ∈ db7.accidents, tsLe r.accident_timestamp ts = true) ∧
      rp7.end_time = ts.date) ∧
    rp7.start_time = ⟨rp7.end_time.year + 1 - 3, 1, 1⟩ :=
  request_params_time_window db7 7 3 rp7 (by rfl)

/-! ## The registry's two generators (src 372-446, 664-671) -/

def get_most_severe_accidents_table_title (location_text : String) : String :=
  "תאונות חמורות ב" ++ location_text

def severity_dict : List (String × String) :=
  [("קטלנית", "fatal"), ("קשה", "severe"), ("קלה", "light")]

/-- `get_accident_count_by_severity` (src 376-402): severity counts over
the location and window, shaped as `severity_<x>_count` keys followed by
the start year, end year and the running total.  (An unknown Hebrew
severity label raises `KeyError` in the source at `severity_dict[...]`;
the model maps it to the empty label — a case nothing below reaches.)  The
final `Widget(widget_id=..., items=items)` call (src 399) then raises
`TypeError`: the dataclass's generated `__init__` accepts only
`request_params` (src 96-103 mark every other field `init=False`), so the
generator never returns a widget. -/
def get_accident_count_by_severity (db : Db) (data : RequestParams)
    (_wid : WidgetId) : Except PyErr Widget :=
  let count_by_severity := get_accidents_stats_acc db.accidents
    (scalarFilters data.location_info) "accident_severity_hebrew"
    (some data.start_time) (some data.end_time)
  let _items :=
    count_by_severity.map (fun sc =>
      ("severity_" ++ ((severity_dict.lookup sc.1.asString).getD "") ++
         "_count",
       PyVal.int sc.2)) ++
    [("start_year", PyVal.int data.start_time.year),
     ("end_year", PyVal.int data.end_time.year),
     ("total_accidents_count",
      PyVal.int ((count_by_severity.map (fun sc => sc.2)).sum))]
  .error .typeError

/-- Most-severe ordering: severity ascending, then timestamp descending. -/
def msRel (a b : AccidentRow) : Prop :=
  a.accident_severity < b.accident_severity ∨
    (a.accident_severity = b.accident_severity ∧
      tsLe b.accident_timestamp a.accident_timestamp = true)

instance : DecidableRel msRel := fun a b =>
  inferInstanceAs (Decidable (_ ∨ _))

/-- `get_most_severe_accidents_with_entities` (src 276-292): provider-code
restriction, time window, order by severity ascending then timestamp
descending, capped at `limit`; the callers below apply their own entity
projections to the resulting rows. -/
def get_most_severe_accidents_rows (rows : List AccidentRow)
    (filters : Filters) (startT endT : Option MyDate) (limit : Nat := 10) :
    List AccidentRow :=
  let filters2 := dictSetFv filters "provider_code" providerFilter
  ((get_query_acc rows filters2 startT endT).insertionSort msRel).take limit

/-- `get_casualties_count_in_accident` (src 469-485): the count of
involved parties of the given accident at the given injury severity.
`get_accidents_stats` overwrites the caller's specific provider code with
the two-code CBS list (`filters["provider_code"] = [...]`), which
`dictSetFv` inside the stats function reproduces; an empty result sums to
zero. -/
def get_casualties_count_in_accident (db : Db)
    (accident_id provider_code injury_severity accident_year : Int) : Int :=
  let filters : Filters :=
    [("accident_id", .scalar (.i accident_id)),
     ("provider_code", .scalar (.i provider_code)),
     ("injury_severity", .scalar (.i injury_severity)),
     ("accident_year", .scalar (.i accident_year))]
  ((get_accidents_stats_inv db.involved filters "injury_severity"
      none none).map (fun p => p.2)).sum

/-- `get_most_severe_accidents_table` (src 405-446): the most severe
accidents with date/time strings and per-row derived casualty counts;
`injured_count = severe + light`; the raw id/provider/timestamp/type
fields are deleted, leaving the keys below in insertion order.  The
closing `Widget(WidgetId.most_severe_accidents_table, items=..., text=...)`
call (src 440) then raises `TypeError` — `items` and `text` are not init
fields of the dataclass (src 96-103) — so the generator never returns a
widget. -/
def get_most_severe_accidents_table (db : Db)
    (request_params : RequestParams) (_wid : WidgetId) :
    Except PyErr Widget :=
  let accidents := get_most_severe_accidents_rows db.accidents
    (scalarFilters request_params.location_info)
    (some request_params.start_time) (some request_params.end_time)
  let _items := accidents.map (fun a =>
    let killed := get_casualties_count_in_accident db a.id a.provider_code
      1 a.accident_year
    let severe := get_casualties_count_in_accident db a.id a.provider_code
      2 a.accident_year
    let light := get_casualties_count_in_accident db a.id a.provider_code
      3 a.accident_year
    PyVal.dict
      [("accident_year", .int a.accident_year),
       ("type", .str a.accident_type_hebrew),
       ("date", .str (fmtDate a.accident_timestamp.date)),
       ("hour", .str (fmtTime a.accident_timestamp.tick)),
       ("killed_count", .int killed),
       ("severe_injured_count", .int severe),
       ("light_injured_count", .int light),
       ("injured_count", .int (severe + light))])
  .error .typeError

/-- `get_widgets_def` (src 664-671): the registry — two descriptors, both
with the default `is_included_in_response=None` and cache-eligibility
`True`. -/
def get_widgets_def (db : Db) : List WidgetDef :=
  [{ widget_id := WId.accident_count_by_severity
     generate_items := get_accident_count_by_severity db
     is_included_in_response := none
     is_included_in_cache := true },
   { widget_id := WId.most_severe_accidents_table
     generate_items := get_most_severe_accidents_table db
     is_included_in_response := none
     is_included_in_cache := true }]

/-- A registry descriptor with no inclusion predicate whose generator
succeeds (a plain constant widget): it isolates the inclusion-check slip
from the dataclass-constructor slip. -/
def predicateFreeDef : WidgetDef :=
  { widget_id := WId.vision_zero
    generate_items := fun _ wid =>
      .ok (Widget.mk wid.name wid.rank (.list []) .none [])
    is_included_in_response := none
    is_included_in_cache := true }

/-- C1 is violated by the code in two independent ways.  First, the loop
serializes a widget only when `item.is_included_in_response and
item.is_included_in_response(item_widget)` is truthy, so a descriptor with
no inclusion predicate is dropped even when its generator succeeds — the
claim says it is always included.  Second, `generate_widgets` runs each
generator before that check (src 678), and with the module's own registry
each generator's `Widget(widget_id=..., items=...)` construction raises
`TypeError` (the dataclass's `__init__` accepts only `request_params`), so
for every database and request context the call raises instead of
returning serialized widgets. -/
theorem generate_widgets_drops_predicate_free (db : Db)
    (rp : RequestParams) :
    generate_widgets rp [predicateFreeDef] true = .ok [] ∧
    generate_widgets rp (get_widgets_def db) true = .error .typeError :=
  ⟨rfl, rfl⟩

/-! ## The remaining statistic functions the orchestrator calls
(src 189-204, 264-273, 295-317, 449-465, 531-594, 609-661) -/

def PyScalar.toPyVal : PyScalar → PyVal
  | .i n => .int n
  | .s t => .str t

/-- A grouped-count query result shaped as `{<key_name>: ..., count: ...}`
records. -/
def statRecords (key_name : String) (stats : List (PyScalar × Int)) : PyVal :=
  .list (stats.map (fun p => PyVal.dict
    [(key_name, p.1.toPyVal), ("count", .int p.2)]))

/-- `get_accident_count_by_accident_type` (src 189-204): the grouped
accident-type counts merged by `mergeAccidentTypeCounts`. -/
def get_accident_count_by_accident_type (db : Db)
    (location_info : List (String × PyScalar))
    (startT endT : Option MyDate) : List TypeCount :=
  mergeAccidentTypeCounts
    ((get_accidents_stats_acc db.accidents (scalarFilters location_info)
        "accident_type_hebrew" startT endT).map
      (fun p => ⟨p.1.asString, p.2⟩))

/-- `get_injured_filters` (src 264-273): rename region/district/yishuv
filters to their `accident_`-prefixed involved-view names (the source's
membership list repeats "district_hebrew"), pass everything else through,
then add the 1-5 injury-severity restriction. -/
def get_injured_filters (location_info : List (String × PyScalar)) :
    Filters :=
  dictSetFv
    (location_info.map (fun p =>
      if ["region_hebrew", "district_hebrew", "district_hebrew",
          "yishuv_name"].contains p.1 then
        ("accident_" ++ p.1, FilterVal.scalar p.2)
      else (p.1, FilterVal.scalar p.2)))
    "injury_severity" (.listVal [.i 1, .i 2, .i 3, .i 4, .i 5])

/-- `get_most_severe_accidents` (src 295-305): the most severe rows
projected onto (longitude, latitude, severity, timestamp, type); the
dataframe rename strips the `_hebrew` suffixes, and `json.dumps` later
stringifies the timestamp. -/
def get_most_severe_accidents (db : Db) (filters : Filters)
    (startT endT : Option MyDate) : List PyVal :=
  (get_most_severe_accidents_rows db.accidents filters startT endT).map
    (fun a => PyVal.dict
      [("longitude", .rat a.longitude),
       ("latitude", .rat a.latitude),
       ("accident_severity", .str a.accident_severity_hebrew),
       ("accident_timestamp", .str (tsToString a.accident_timestamp)),
       ("accident_type", .str a.accident_type_hebrew)])

/-- `get_accidents_heat_map` (src 308-317): the provider-restricted
projection of (longitude, latitude) — no aggregation. -/
def get_accidents_heat_map (db : Db) (filters : Filters)
    (startT endT : Option MyDate) : List PyVal :=
  (get_query_acc db.accidents
      (dictSetFv filters "provider_code" providerFilter) startT endT).map
    (fun a => PyVal.dict
      [("longitude", .rat a.longitude), ("latitude", .rat a.latitude)])

/-- Modelled from the spec: the Hebrew labels of
`head_on_collisions_comparison_dict` (`anyway.infographics_dictionaries`,
outside these sources). -/
def head_to_head_collision_label : String := "התנגשות חזית בחזית"

def head_on_others_label : String := "אחרות"

def head_to_head_label : String := "חזיתיות"

/-- Modelled from the spec: the road-type and severity codes
(`BE_CONST.ROAD_TYPE_NOT_IN_CITY_NOT_IN_INTERSECTION`,
`BE_CONST.ACCIDENT_SEVERITY_DEADLY`) of the backend-constants module
outside these sources; the concrete values are immaterial. -/
def roadTypeNotInCityNotInIntersection : Int := 4

def accidentSeverityDeadly : Int := 1

/-- `sum_road_accidents_by_specific_type` (src 531-541): split grouped
type counts into the named type vs an "others" bucket, both keys preset
to 0. -/
def sum_road_accidents_by_specific_type (road_data : List TypeCount)
    (field_name : String) : CountDict :=
  road_data.foldl
    (fun d item =>
      if item.accident_type == field_name then
        dictBump d field_name item.count
      else dictBump d head_on_others_label item.count)
    (dictBump (dictBump [] field_name 0) head_on_others_label 0)

/-- `convert_roads_fatal_accidents_to_frontend_view` (src 544-552). -/
def convert_roads_fatal_accidents_to_frontend_view (data_dict : CountDict) :
    List PyVal :=
  data_dict.map (fun p =>
    if p.1 == head_to_head_collision_label then
      PyVal.dict [("desc", .str head_to_head_label), ("count", .int p.2)]
    else PyVal.dict [("desc", .str p.1), ("count", .int p.2)])

/-- `get_head_to_head_stat` (src 555-594): fatal, non-urban,
non-intersection accident counts split head-on vs others, once for the
event's road segment (when road and segment are truthy) and once for all
roads.  A missing news flash raises `AttributeError` in the source
(`news_flash_obj.road1` on None); the orchestrator resolved the flash
before calling, so the model folds that case into the unresolvable-road
branch. -/
def get_head_to_head_stat (db : Db) (news_flash_id : Int)
    (startT endT : Option MyDate) : PyVal :=
  let filter_dict : Filters :=
    [("road_type", .scalar (.i roadTypeNotInCityNotInIntersection)),
     ("accident_severity", .scalar (.i accidentSeverityDeadly))]
  let all_roads_data := (get_accidents_stats_acc db.accidents filter_dict
      "accident_type_hebrew" startT endT).map
    (fun p => (⟨p.1.asString, p.2⟩ : TypeCount))
  let road_data :=
    match findNewsFlash db news_flash_id with
    | some nf =>
        match nf.road1, nf.road_segment_name with
        | some r1, some seg =>
            if r1 != 0 && seg != "" then
              (get_accidents_stats_acc db.accidents
                  (dictSetFv (dictSetFv filter_dict "road1"
                      (.scalar (.i r1)))
                    "road_segment_name" (.scalar (.s seg)))
                  "accident_type_hebrew" startT endT).map
                (fun p => (⟨p.1.asString, p.2⟩ : TypeCount))
            else []
        | _, _ => []
    | none => []
  PyVal.dict
    [("specific_road_segment_fatal_accidents",
      .list (convert_roads_fatal_accidents_to_frontend_view
        (sum_road_accidents_by_specific_type road_data
          head_to_head_collision_label))),
     ("all_roads_fatal_accidents",
      .list (convert_roads_fatal_accidents_to_frontend_view
        (sum_road_accidents_by_specific_type all_roads_data
          head_to_head_collision_label)))]

/-- Modelled from the spec: the driver-classification vehicle-type code
sets and Hebrew labels (backend constants and the infographics dictionary,
outside these sources).  Disjoint stand-in code sets; values immaterial. -/
def professionalDriverVehicleTypes : List Int := [11, 12, 13]

def privateDriverVehicleTypes : List Int := [1]

def lightElectricVehicleTypes : List Int := [21, 22]

def otherVehiclesTypes : List Int := [31, 32]

def driverTypeProfessionalLabel : String := "נהג מקצועי"

def driverTypePrivateLabel : String := "נהג פרטי"

def driverTypeOtherLabel : String := "אחר"

/-- `count_accidents_by_driver_type` (src 449-465): classify each involved
vehicle-type code into professional/private/other via the fixed membership
sets; a code outside every set is silently dropped. -/
def count_accidents_by_driver_type
    (involved_by_vehicle_type : List (PyScalar × Int)) : List PyVal :=
  let driver_types := involved_by_vehicle_type.foldl
    (fun d item =>
      match item.1 with
      | .i vt =>
          if professionalDriverVehicleTypes.contains vt then
            dictBump d driverTypeProfessionalLabel item.2
          else if privateDriverVehicleTypes.contains vt then
            dictBump d driverTypePrivateLabel item.2
          else if lightElectricVehicleTypes.contains vt ||
              otherVehiclesTypes.contains vt then
            dictBump d driverTypeOtherLabel item.2
          else d
      | .s _ => d)
    []
  driver_types.map (fun p =>
    PyVal.dict [("driver_type", .str p.1), ("count", .int p.2)])

/-- Modelled from the spec: the five car-type bucket code sets of the
backend-constants module; disjoint stand-ins. -/
def carVehicleTypes : List Int := [1]

def largeVehicleTypes : List Int := [11, 12, 13]

def motorcycleVehicleTypes : List Int := [41]

def bicycleAndSmallMotorVehicleTypes : List Int := [21, 22]

/-- An ordered `str -> ℚ` dictionary (`defaultdict(float)`). -/
abbrev QDict := List (String × ℚ)

def qdictBump : QDict → String → ℚ → QDict
  | [], k, v => [(k, v)]
  | (k0, v0) :: rest, k, v =>
      if k0 == k then (k0, v0 + v) :: rest else (k0, v0) :: qdictBump rest k v

def qdictGet (d : QDict) (k : String) : ℚ :=
  ((d.find? (fun p => p.1 == k)).map (fun p => p.2)).getD 0

/-- `percentage_accidents_by_car_type` (src 609-630): classify involved
vehicle types into five buckets — an unmatched code lands in "אחר", unlike
the driver-type function — and express each bucket as a percentage of the
total count (a zero total is a ZeroDivisionError in the source; ℚ division
by zero is 0 in the model, a case no claim exercises). -/
def percentage_accidents_by_car_type
    (involved_by_vehicle_type_data : List (PyScalar × Int)) : QDict :=
  let driver_types := involved_by_vehicle_type_data.foldl
    (fun d item =>
      match item.1 with
      | .i vt =>
          if carVehicleTypes.contains vt then
            qdictBump d "רכב פרטי" (item.2 : ℚ)
          else if largeVehicleTypes.contains vt then
            qdictBump d "מסחרי/משאית" (item.2 : ℚ)
          else if motorcycleVehicleTypes.contains vt then
            qdictBump d "אופנוע" (item.2 : ℚ)
          else if bicycleAndSmallMotorVehicleTypes.contains vt then
            qdictBump d "אופניים/קורקינט" (item.2 : ℚ)
          else qdictBump d "אחר" (item.2 : ℚ)
      | .s _ => qdictBump d "אחר" (item.2 : ℚ))
    []
  let total_count : ℚ :=
    ((involved_by_vehicle_type_data.map (fun p => p.2)).sum : Int)
  driver_types.map (fun p => (p.1, 100 * p.2 / total_count))

/-- `percentage_accidents_by_car_type_national_data_cache` (src 633-642):
the same percentages over the entire dataset (no location filter) for the
window.  The lru_cache(64) memoization is semantically transparent for
this pure function and is not modelled. -/
def percentage_accidents_by_car_type_national_data_cache (db : Db)
    (startT endT : Option MyDate) : QDict :=
  percentage_accidents_by_car_type
    (get_accidents_stats_inv db.involved [] "involve_vehicle_type"
      startT endT)

/-- `stats_accidents_by_car_type_with_national_data` (src 645-661). -/
def stats_accidents_by_car_type_with_national_data (db : Db)
    (involved_by_vehicle_type_data : List (PyScalar × Int))
    (startT endT : Option MyDate) : List PyVal :=
  let data_by_segment :=
    percentage_accidents_by_car_type involved_by_vehicle_type_data
  let national_data :=
    percentage_accidents_by_car_type_national_data_cache db startT endT
  national_data.map (fun p => PyVal.dict
    [("car_type", .str p.1),
     ("percentage_segment", .rat (qdictGet data_by_segment p.1)),
     ("percentage_country", .rat (qdictGet national_data p.1))])

/-! ## The synchronous orchestrator (create_infographics_data, src 723-1104) -/

/-- The response envelope `{meta: {location_info, location_text},
widgets: [...]}`; the final `json.dumps(..., default=str)` serialization
to a string is elided. -/
structure Envelope where
  location_info : List (String × PyScalar)
  location_text : String
  widgets : List PyVal

/-- A scale-4 decimal as a rational, for serialized payloads. -/
def Dec4.toRat (d : Dec4) : ℚ := Rat.divInt d.units 10000

/-- The orchestrator's widget-list construction (src 736-1102).  The first
statement is the registry element:
`output["widgets"].append(generate_widgets(...))` would append the
generated list as a single element, but with the module's registry the
generators raise `TypeError`, which propagates.  Were that element ever
produced, the next statement (src 758) evaluates the most-severe query and
then raises `TypeError` itself at
`Widget(WidgetId.most_severe_accidents, items=...)` — the same dataclass
constructor slip — so the statements of src 767-1102 (the remaining
statistic widgets and the fixed mock payloads) are dead code and are not
reproduced here. -/
def envelopeWidgets (db : Db) (_news_flash_id : Int) (rp : RequestParams) :
    Except PyErr (List PyVal) :=
  match generate_widgets rp (get_widgets_def db) true with
  | .error e => .error e
  | .ok registry_element =>
      let _widgets0 : List PyVal := [.list registry_element]
      let _most_severe_items := get_most_severe_accidents db
        (scalarFilters rp.location_info) (some rp.start_time)
        (some rp.end_time)
      .error .typeError

/-- `create_infographics_data` (src 723-737): the attribute accesses on
the builder's result (src 725-729) precede the `if request_params is None`
check (src 731), so a "not found" result from the builder raises
`AttributeError` instead of returning the empty envelope; on the success
path the meta block is assembled and the widget-list construction runs
(and, with the module's registry, raises `TypeError` — see
`envelopeWidgets`; `news_flash_id` is also passed on to the head-on
widget's query in the source, unreached). -/
def create_infographics_data (db : Db) (news_flash_id : Int)
    (number_of_years_ago : PyArg) : Except PyErr Envelope :=
  match get_request_params db news_flash_id number_of_years_ago with
  | .error e => .error e
  | .ok none => .error .attributeError
  | .ok (some request_params) =>
      match envelopeWidgets db news_flash_id request_params with
      | .error e => .error e
      | .ok widgets =>
          .ok { location_info := request_params.location_info
                location_text := request_params.location_text
                widgets := widgets }

/-- C2 is violated by the code: `create_infographics_data` dereferences
`request_params.location_info` (src 725) before the
`if request_params is None: return {}` check (src 731), so an input the
Request Context Builder maps to "not found" — here the out-of-range
lookback 101 on event 1 — raises `AttributeError` instead of returning
the empty envelope. -/
theorem create_infographics_raises_on_not_found :
    create_infographics_data {} 1 (.int 101) = .error .attributeError := rfl

/-! ## The cached-read path (get_infographics_data, src 1107-1121) -/

/-- A log record of the cached-read path: the exception log carries the
event id, the lookback and the cause; the fallback log carries the id and
lookback of the missing entry. -/
inductive LogEvent where
  | cacheError (news_flash_id : Int) (years_ago : Int) (cause : PyErr)
  | notFound (news_flash_id : Int) (years_ago : Int)
deriving DecidableEq, Repr

/-- The function's result: the merged widget list on success, the empty
dict `{}` after a caught failure. -/
inductive InfographicsResult where
  | emptyDict
  | widgets (l : List PyVal)

def infographicsResultTruthy : InfographicsResult → Bool
  | .emptyDict => false
  | .widgets l => !l.isEmpty

/-- `get_infographics_data` (src 1107-1121): fetch the precomputed
widgets from the cache collaborator (`infographics_data_cache_updater`,
outside these sources — its outcome, and that of the fresh non-cacheable
computation of src 1111-1112, enter the model as `Except` values), append
the freshly generated widgets as one element, catch every failure of
either step — logging event id, lookback and cause and degrading to `{}` —
and log "not found" when the final result is falsy. -/
def get_infographics_data
    (cache_result : Except PyErr (List PyVal))
    (fresh_result : Except PyErr (List PyVal))
    (news_flash_id : Int) (years_ago : Int) :
    InfographicsResult × List LogEvent :=
  let step :=
    match cache_result with
    | .error e => (InfographicsResult.emptyDict,
        [LogEvent.cacheError news_flash_id years_ago e])
    | .ok res =>
        match fresh_result with
        | .error e => (InfographicsResult.emptyDict,
            [LogEvent.cacheError news_flash_id years_ago e])
        | .ok fresh => (InfographicsResult.widgets (res ++ [.list fresh]), [])
  if infographicsResultTruthy step.1 then step
  else (step.1, step.2 ++ [LogEvent.notFound news_flash_id years_ago])

/-- C8: every failure raised by the cache collaborator or by the
fresh-computation fallback is caught — the result is the empty dict, never
a propagated exception (the embedded function is total into a plain
result), and the log carries the event id, the lookback and the cause. -/
theorem get_infographics_data_degrades_on_error
    (cache_result fresh_result : Except PyErr (List PyVal))
    (news_flash_id years_ago : Int) (e : PyErr)
    (h : cache_result = .error e ∨
      (∃ res, cache_result = .ok res ∧ fresh_result = .error e)) :
    (get_infographics_data cache_result fresh_result news_flash_id
        years_ago).1 = .emptyDict ∧
    LogEvent.cacheError news_flash_id years_ago e ∈
      (get_infographics_data cache_result fresh_result news_flash_id
        years_ago).2 := by
  rcases h with h | ⟨res, hc, hf⟩
  · subst h
    simp [get_infographics_data, infographicsResultTruthy]
  · subst hc
    subst hf
    simp [get_infographics_data, infographicsResultTruthy]

/-- C8 witness: a failing cache collaborator degrades to the empty dict
and the error log for event 5, lookback 2. -/
theorem get_infographics_data_degrades_witness :
    (get_infographics_data (.error .valueError) (.ok []) 5 2).1 =
        .emptyDict ∧
    LogEvent.cacheError 5 2 .valueError ∈
      (get_infographics_data (.error .valueError) (.ok []) 5 2).2 :=
  get_infographics_data_degrades_on_error (.error .valueError) (.ok [])
    5 2 .valueError (Or.inl rfl)

end Infographics
